import Mathlib

/-!
Verification of the budget_buddy core: identity verification, account
resolution, ledger repository and stats aggregation, together with the
frontend API client and transaction-entry form found under `web/src`.

The repository ships only the frontend; the backend (FastAPI) components —
IdentityVerifier, AccountResolver, LedgerRepository, StatsAggregator and the
HTTP 401 gate — are not present under `src/`, so they are modelled from the
specification, as marked on each definition.  Frontend code (`api.ts`,
`telegram.ts`, `TransactionsPage.tsx`) is embedded from the source.
-/

namespace BudgetBuddy

/-- Transaction type: the spec fixes `type ∈ \x7bexpense, income\x7d`. -/
inductive TxType where
  | expense
  | income
deriving DecidableEq, Repr

/-- Modelled from the spec: the stored Transaction record.  Belongs to one
Account (`accountId`), has a type, a positive amount in minor currency units
(exact integer, no floating point), an optional note, an optional category
reference and an occurrence timestamp (seconds).  `id` records insertion
order (the repository assigns increasing ids). -/
structure StoredTx where
  id : Nat
  accountId : Int
  txType : TxType
  amount : Int
  note : String
  categoryId : Option Nat
  occurredAt : Int
deriving DecidableEq, Repr

/-- The derived StatsSnapshot of the spec (mirrors the frontend `Stats` type
in `web/src/lib/api.ts`): balance plus weekly/monthly spent/income sums. -/
structure StatsSnapshot where
  balance : Int
  week_spent : Int
  week_income : Int
  month_spent : Int
  month_income : Int
deriving DecidableEq, Repr

/-- Seconds in one hour. -/
def hourSec : Int := 3600

/-- Seconds in one day. -/
def daySec : Int := 24 * hourSec

/-- Sum of the amounts of the transactions satisfying `p`. -/
def sumAmount (p : StoredTx → Bool) (txs : List StoredTx) : Int :=
  ((txs.filter p).map (·.amount)).sum

/-- Membership of a timestamp in the trailing window of `n` seconds ending at
`now`: the closed interval `[now − n, now]`, both bounds inclusive. -/
def inWindow (now n t : Int) : Bool :=
  decide (now - n ≤ t) && decide (t ≤ now)

/-- Modelled from the spec: `StatsAggregator.compute`, a single read-only
fold over the account's transactions.  `balance` adds incomes and subtracts
expenses over all time; the week (7×24h) and month (30×24h) fields only
accumulate transactions whose occurrence timestamp lies in the rolling
window ending at `now`. -/
def compute (txs : List StoredTx) (now : Int) : StatsSnapshot :=
  txs.foldl
    (fun s t =>
      let inW := inWindow now (7 * daySec) t.occurredAt
      let inM := inWindow now (30 * daySec) t.occurredAt
      match t.txType with
      | .income =>
          { s with
            balance := s.balance + t.amount
            week_income := if inW then s.week_income + t.amount else s.week_income
            month_income := if inM then s.month_income + t.amount else s.month_income }
      | .expense =>
          { s with
            balance := s.balance - t.amount
            week_spent := if inW then s.week_spent + t.amount else s.week_spent
            month_spent := if inM then s.month_spent + t.amount else s.month_spent })
    ⟨0, 0, 0, 0, 0⟩

/-- Predicate form: transaction is an income. -/
def isIncome (t : StoredTx) : Bool := t.txType = TxType.income

/-- Predicate form: transaction is an expense. -/
def isExpense (t : StoredTx) : Bool := t.txType = TxType.expense

/-- The concrete three-transaction ledger used by the spec's testable
property: income 100000 at `t0`, expense 30000 at `t0 + 1h`, income 5000 at
`t0 + 8 days`. -/
def sampleLedger (t0 : Int) : List StoredTx :=
  [ ⟨1, 1, .income, 100000, "", none, t0⟩,
    ⟨2, 1, .expense, 30000, "", none, t0 + hourSec⟩,
    ⟨3, 1, .income, 5000, "", none, t0 + 8 * daySec⟩ ]

section ComputeLemmas

/-- Unfolding lemma: `compute` started from an arbitrary accumulator adds the
filtered sums fieldwise. -/
theorem compute_foldl_eq (txs : List StoredTx) (now : Int) (s : StatsSnapshot) :
    txs.foldl
      (fun s t =>
        let inW := inWindow now (7 * daySec) t.occurredAt
        let inM := inWindow now (30 * daySec) t.occurredAt
        match t.txType with
        | .income =>
            { s with
              balance := s.balance + t.amount
              week_income := if inW then s.week_income + t.amount else s.week_income
              month_income := if inM then s.month_income + t.amount else s.month_income }
        | .expense =>
            { s with
              balance := s.balance - t.amount
              week_spent := if inW then s.week_spent + t.amount else s.week_spent
              month_spent := if inM then s.month_spent + t.amount else s.month_spent })
      s =
    { balance := s.balance + sumAmount isIncome txs - sumAmount isExpense txs
      week_spent := s.week_spent +
        sumAmount (fun t => isExpense t && inWindow now (7 * daySec) t.occurredAt) txs
      week_income := s.week_income +
        sumAmount (fun t => isIncome t && inWindow now (7 * daySec) t.occurredAt) txs
      month_spent := s.month_spent +
        sumAmount (fun t => isExpense t && inWindow now (30 * daySec) t.occurredAt) txs
      month_income := s.month_income +
        sumAmount (fun t => isIncome t && inWindow now (30 * daySec) t.occurredAt) txs } := by
  induction txs generalizing s with
  | nil => simp [sumAmount]
  | cons t ts ih =>
      cases ht : t.txType <;>
        simp only [List.foldl_cons, ht, ih, sumAmount, List.filter_cons, isIncome, isExpense,
          ht, decide_eq_true_eq] <;>
        cases hw : inWindow now (7 * daySec) t.occurredAt <;>
        cases hm : inWindow now (30 * daySec) t.occurredAt <;>
        simp_all <;>
        omega

/-- Unfolded form: `compute` equals the spec's filtered sums: balance over all time, the
window fields restricted to the rolling windows. -/
theorem compute_eq_spec (txs : List StoredTx) (now : Int) :
    compute txs now =
      { balance := sumAmount isIncome txs - sumAmount isExpense txs
        week_spent := sumAmount (fun t => isExpense t && inWindow now (7 * daySec) t.occurredAt) txs
        week_income := sumAmount (fun t => isIncome t && inWindow now (7 * daySec) t.occurredAt) txs
        month_spent := sumAmount (fun t => isExpense t && inWindow now (30 * daySec) t.occurredAt) txs
        month_income := sumAmount (fun t => isIncome t && inWindow now (30 * daySec) t.occurredAt) txs } := by
  have h := compute_foldl_eq txs now ⟨0, 0, 0, 0, 0⟩
  simpa [compute] using h

/-- Sample ledger queried two days after `t0`. -/
theorem compute_sample_2d (t0 : Int) :
    compute (sampleLedger t0) (t0 + 2 * daySec) = ⟨75000, 30000, 100000, 30000, 100000⟩ := by
  rw [compute_eq_spec]
  have w1 : inWindow (t0 + 2 * daySec) (7 * daySec) t0 = true := by
    simp only [inWindow, daySec, hourSec, Bool.and_eq_true, decide_eq_true_eq]
    omega
  have w2 : inWindow (t0 + 2 * daySec) (7 * daySec) (t0 + hourSec) = true := by
    simp only [inWindow, daySec, hourSec, Bool.and_eq_true, decide_eq_true_eq]
    omega
  have w3 : inWindow (t0 + 2 * daySec) (7 * daySec) (t0 + 8 * daySec) = false := by
    simp only [inWindow, daySec, hourSec, Bool.and_eq_false_iff, decide_eq_false_iff_not]
    omega
  have m1 : inWindow (t0 + 2 * daySec) (30 * daySec) t0 = true := by
    simp only [inWindow, daySec, hourSec, Bool.and_eq_true, decide_eq_true_eq]
    omega
  have m2 : inWindow (t0 + 2 * daySec) (30 * daySec) (t0 + hourSec) = true := by
    simp only [inWindow, daySec, hourSec, Bool.and_eq_true, decide_eq_true_eq]
    omega
  have m3 : inWindow (t0 + 2 * daySec) (30 * daySec) (t0 + 8 * daySec) = false := by
    simp only [inWindow, daySec, hourSec, Bool.and_eq_false_iff, decide_eq_false_iff_not]
    omega
  simp [sampleLedger, sumAmount, isIncome, isExpense, w1, w2, w3, m1, m2, m3]

/-- Sample ledger queried nine days after `t0`. -/
theorem compute_sample_9d (t0 : Int) :
    compute (sampleLedger t0) (t0 + 9 * daySec) = ⟨75000, 0, 5000, 30000, 105000⟩ := by
  rw [compute_eq_spec]
  have w1 : inWindow (t0 + 9 * daySec) (7 * daySec) t0 = false := by
    simp only [inWindow, daySec, hourSec, Bool.and_eq_false_iff, decide_eq_false_iff_not]
    omega
  have w2 : inWindow (t0 + 9 * daySec) (7 * daySec) (t0 + hourSec) = false := by
    simp only [inWindow, daySec, hourSec, Bool.and_eq_false_iff, decide_eq_false_iff_not]
    omega
  have w3 : inWindow (t0 + 9 * daySec) (7 * daySec) (t0 + 8 * daySec) = true := by
    simp only [inWindow, daySec, hourSec, Bool.and_eq_true, decide_eq_true_eq]
    omega
  have m1 : inWindow (t0 + 9 * daySec) (30 * daySec) t0 = true := by
    simp only [inWindow, daySec, hourSec, Bool.and_eq_true, decide_eq_true_eq]
    omega
  have m2 : inWindow (t0 + 9 * daySec) (30 * daySec) (t0 + hourSec) = true := by
    simp only [inWindow, daySec, hourSec, Bool.and_eq_true, decide_eq_true_eq]
    omega
  have m3 : inWindow (t0 + 9 * daySec) (30 * daySec) (t0 + 8 * daySec) = true := by
    simp only [inWindow, daySec, hourSec, Bool.and_eq_true, decide_eq_true_eq]
    omega
  simp [sampleLedger, sumAmount, isIncome, isExpense, w1, w2, w3, m1, m2, m3]

end ComputeLemmas

/-- C2: `compute` returns balance = incomes − expenses over the whole ledger
(future transactions included), and the week/month fields are the same sums
restricted to the closed trailing windows `[now − 7×24h, now]` and
`[now − 30×24h, now]`; on the ledger \x7bincome 100000 at t0, expense 30000
at t0+1h, income 5000 at t0+8d\x7d, with now = t0+2d: balance 75000,
week_spent 30000, week_income 100000, month_spent 30000; with now = t0+9d:
month_income 105000, week_income 5000, week_spent 0. -/
theorem claim_C2_stats_aggregation :
    (∀ (txs : List StoredTx) (now : Int),
        compute txs now =
          { balance := sumAmount isIncome txs - sumAmount isExpense txs
            week_spent :=
              sumAmount (fun t => isExpense t && inWindow now (7 * daySec) t.occurredAt) txs
            week_income :=
              sumAmount (fun t => isIncome t && inWindow now (7 * daySec) t.occurredAt) txs
            month_spent :=
              sumAmount (fun t => isExpense t && inWindow now (30 * daySec) t.occurredAt) txs
            month_income :=
              sumAmount (fun t => isIncome t && inWindow now (30 * daySec) t.occurredAt) txs }) ∧
    (∀ t0 : Int,
        (compute (sampleLedger t0) (t0 + 2 * daySec)).balance = 75000 ∧
        (compute (sampleLedger t0) (t0 + 2 * daySec)).week_spent = 30000 ∧
        (compute (sampleLedger t0) (t0 + 2 * daySec)).week_income = 100000 ∧
        (compute (sampleLedger t0) (t0 + 2 * daySec)).month_spent = 30000) ∧
    (∀ t0 : Int,
        (compute (sampleLedger t0) (t0 + 9 * daySec)).month_income = 105000 ∧
        (compute (sampleLedger t0) (t0 + 9 * daySec)).week_income = 5000 ∧
        (compute (sampleLedger t0) (t0 + 9 * daySec)).week_spent = 0) := by
  refine ⟨compute_eq_spec, fun t0 => ?_, fun t0 => ?_⟩
  · rw [compute_sample_2d]
    exact ⟨rfl, rfl, rfl, rfl⟩
  · rw [compute_sample_9d]
    exact ⟨rfl, rfl, rfl⟩

/-! ## IdentityVerifier (modelled from the spec) -/

/-- The verification error taxonomy of the spec (§7). -/
inductive VerificationError where
  | MissingSignature
  | MissingTimestamp
  | InvalidSignature
  | Expired
  | MissingUser
deriving DecidableEq, Repr

/-- Name of the signature field of the identity payload (`hash` in the
Telegram initData mock of `web/src/test/test-setup.ts`). -/
def signatureField : String := "hash"

/-- Name of the authentication timestamp field (`auth_date` in the mock). -/
def timestampField : String := "auth_date"

/-- Name of the embedded user-profile field. -/
def userField : String := "user"

/-- Bytes of a string, as natural numbers (codepoints; ASCII-identical to the
byte encoding for the field names and hex digits involved). -/
def strBytes (s : String) : List Nat := s.toList.map Char.toNat

/-- Lowercase hexadecimal digit for a value below 16. -/
def hexDigitChar (n : Nat) : Char :=
  if n < 10 then Char.ofNat (48 + n) else Char.ofNat (87 + n)

/-- Two lowercase hex digits of one byte. -/
def byteHex (b : Nat) : String :=
  String.mk [hexDigitChar (b / 16 % 16), hexDigitChar (b % 16)]

/-- Lowercase hex encoding of a byte sequence. -/
def hexEncode (bs : List Nat) : String := String.join (bs.map byteHex)

/-- Modelled from the spec: step 1 turns the payload into a mapping of field
name → string value where, on duplicate keys, the last occurrence wins. -/
def dedupeKeepLast : List (String × String) → List (String × String)
  | [] => []
  | p :: rest =>
      if rest.any (fun q => q.1 = p.1) then dedupeKeepLast rest
      else p :: dedupeKeepLast rest

/-- Value of field `k` in the mapping, if present. -/
def lookupField (fields : List (String × String)) (k : String) : Option String :=
  (fields.find? (fun p => p.1 = k)).map (·.2)

/-- One `name=value` line of the canonical check string. -/
def fieldLine (p : String × String) : String := p.1 ++ "=" ++ p.2

/-- Lexicographic order on character lists, by codepoint (for ASCII field
names this coincides with byte order; UTF-8 byte order agrees with codepoint
order in general). -/
def charListLe : List Char → List Char → Bool
  | [], _ => true
  | _ :: _, [] => false
  | a :: as, b :: bs =>
      if a.toNat < b.toNat then true
      else if b.toNat < a.toNat then false
      else charListLe as bs

/-- Byte/lexicographic order on strings. -/
def strLe (a b : String) : Bool := charListLe a.toList b.toList

/-- Fields sorted by field name, ascending byte/lexicographic order. -/
def sortByName (fields : List (String × String)) : List (String × String) :=
  List.insertionSort (fun a b => strLe a.1 b.1 = true) fields

/-- Decimal parse of the authentication timestamp value; `none` when the
string is empty or holds a non-digit (the spec's "unparsable"). -/
def parseDecimal (s : String) : Option Nat :=
  let ds := s.toList
  if ds.isEmpty then none
  else if ds.all Char.isDigit then
    some (ds.foldl (fun n c => n * 10 + (c.toNat - 48)) 0)
  else none

/-- Modelled from the spec: step 4's canonical check string — remaining
fields sorted by name ascending, each rendered `name=value`, joined with a
single newline and no trailing newline. -/
def checkString (fields : List (String × String)) : String :=
  String.intercalate "\n" ((sortByName fields).map fieldLine)

/-- The two crypto/JSON primitives the verifier is parameterized over:
`hmac key msg` is the 256-bit keyed hash (HMAC-SHA256) as a byte list, and
`parseUser` decodes the JSON user-profile field to a platform user id. -/
structure VerifyCfg where
  hmac : List Nat → List Nat → List Nat
  parseUser : String → Option Int

/-- Modelled from the spec: steps 5–6.  The signing key is the keyed hash of
the literal `"WebAppData"` under the long-lived secret token; the signature
of the check string under that key is hex-encoded. -/
def computeSignature (cfg : VerifyCfg) (secret : List Nat)
    (fields : List (String × String)) : String :=
  hexEncode (cfg.hmac (cfg.hmac secret (strBytes "WebAppData"))
    (strBytes (checkString fields)))

/-- Modelled from the spec: `IdentityVerifier.verify` (§4.1), a pure function
of the parsed field mapping, the secret, and the explicit current time;
`maxAge` is the replay window and `skew` the clock-skew tolerance, both in
seconds. -/
def verify (cfg : VerifyCfg) (fields0 : List (String × String)) (secret : List Nat)
    (now maxAge skew : Int) : Except VerificationError Int :=
  let fields := dedupeKeepLast fields0
  match lookupField fields signatureField with
  | none => .error .MissingSignature
  | some sig =>
      let rest := fields.filter (fun p => ¬ p.1 = signatureField)
      match (lookupField rest timestampField).bind parseDecimal with
      | none => .error .MissingTimestamp
      | some ts =>
          if computeSignature cfg secret rest ≠ sig then .error .InvalidSignature
          else if now - (ts : Int) > maxAge ∨ (ts : Int) > now + skew then .error .Expired
          else
            match (lookupField rest userField).bind cfg.parseUser with
            | none => .error .MissingUser
            | some uid => .ok uid

/-- The remaining fields of a payload: the parsed mapping minus the
signature field. -/
def restFields (fields0 : List (String × String)) : List (String × String) :=
  (dedupeKeepLast fields0).filter (fun p => ¬ p.1 = signatureField)

/-- Control-flow characterization of `verify` once the signature field is
present and the timestamp parses: the remaining checks run in order
signature → expiry → user. -/
theorem verify_eq_of_parsed (cfg : VerifyCfg) (fields0 : List (String × String))
    (secret : List Nat) (now maxAge skew : Int) (sig : String) (ts : Nat)
    (h1 : lookupField (dedupeKeepLast fields0) signatureField = some sig)
    (h2 : (lookupField (restFields fields0) timestampField).bind parseDecimal = some ts) :
    verify cfg fields0 secret now maxAge skew =
      (if computeSignature cfg secret (restFields fields0) ≠ sig then
        Except.error VerificationError.InvalidSignature
      else if now - (ts : Int) > maxAge ∨ (ts : Int) > now + skew then
        Except.error VerificationError.Expired
      else
        match (lookupField (restFields fields0) userField).bind cfg.parseUser with
        | none => Except.error VerificationError.MissingUser
        | some uid => Except.ok uid) := by
  unfold restFields at h2 ⊢
  simp only [verify, h1, h2]

/-- Toy instance of the keyed-hash primitive, used to evaluate the model on
concrete payloads. -/
def toyHmac (key msg : List Nat) : List Nat := [(key.sum + msg.sum) % 256]

/-- Toy instance of the user-profile decoder: any non-empty value is user 7. -/
def toyParseUser (s : String) : Option Int := if s = "" then none else some 7

/-- Toy verifier configuration. -/
def toyCfg : VerifyCfg := ⟨toyHmac, toyParseUser⟩

/-- Toy secret token. -/
def toySecret : List Nat := [1, 2, 3]

/-- A correctly signed concrete payload with authentication timestamp `ts`. -/
def toyPayload (ts : Nat) : List (String × String) :=
  [("auth_date", toString ts), ("user", "u"),
   ("hash", computeSignature toyCfg toySecret [("auth_date", toString ts), ("user", "u")])]

/-- C1: for any payload whose mapping, after removing the signature field,
still holds a parseable authentication timestamp, `verify` fails with
`InvalidSignature` exactly when the hex-encoded keyed hash of the canonical
check string — remaining fields sorted by name ascending, rendered
`name=value`, joined by single newlines — under the key
`hmac(secret, "WebAppData")` differs from the extracted signature field. -/
theorem claim_C1_canonical_signature_check (cfg : VerifyCfg)
    (fields0 : List (String × String)) (secret : List Nat)
    (now maxAge skew : Int) (sig : String) (ts : Nat)
    (h1 : lookupField (dedupeKeepLast fields0) signatureField = some sig)
    (h2 : (lookupField (restFields fields0) timestampField).bind parseDecimal = some ts) :
    verify cfg fields0 secret now maxAge skew
        = Except.error VerificationError.InvalidSignature ↔
      hexEncode (cfg.hmac (cfg.hmac secret (strBytes "WebAppData"))
          (strBytes (String.intercalate "\n"
            ((List.insertionSort (fun a b => strLe a.1 b.1 = true) (restFields fields0)).map
              (fun p => p.1 ++ "=" ++ p.2))))) ≠ sig := by
  rw [verify_eq_of_parsed cfg fields0 secret now maxAge skew sig ts h1 h2]
  split_ifs with hc hd
  · exact iff_of_true rfl hc
  · exact iff_of_false (by simp) hc
  · refine iff_of_false ?_ hc
    cases (lookupField (restFields fields0) userField).bind cfg.parseUser <;> simp

/-- C1 witness: the toy payload with a wrong signature byte appended. -/
theorem claim_C1_witness :
    lookupField (dedupeKeepLast (toyPayload 113601)) signatureField
        = some (computeSignature toyCfg toySecret
            [("auth_date", "113601"), ("user", "u")]) ∧
    (lookupField (restFields (toyPayload 113601)) timestampField).bind parseDecimal
        = some 113601 ∧
    (verify toyCfg (toyPayload 113601) toySecret 200000 86400 10
        = Except.error VerificationError.InvalidSignature ↔
      hexEncode (toyCfg.hmac (toyCfg.hmac toySecret (strBytes "WebAppData"))
          (strBytes (String.intercalate "\n"
            ((List.insertionSort (fun a b => strLe a.1 b.1 = true)
                (restFields (toyPayload 113601))).map
              (fun p => p.1 ++ "=" ++ p.2))))) ≠
        computeSignature toyCfg toySecret [("auth_date", "113601"), ("user", "u")]) :=
  ⟨rfl, rfl,
    claim_C1_canonical_signature_check toyCfg (toyPayload 113601) toySecret
      200000 86400 10
      (computeSignature toyCfg toySecret [("auth_date", "113601"), ("user", "u")])
      113601 rfl rfl⟩

/-- C3: for a correctly signed payload, `verify` fails with `Expired` exactly
when `now − authTimestamp > maxAge` or `authTimestamp > now + skew`; on the
concrete toy payload with `maxAge = 86400` and `now = 200000`, the timestamp
`now − (maxAge + 1)` fails with `Expired` and `now − (maxAge − 1)`
succeeds. -/
theorem claim_C3_expiry_window :
    (∀ (cfg : VerifyCfg) (fields0 : List (String × String)) (secret : List Nat)
        (now maxAge skew : Int) (sig : String) (ts : Nat),
      lookupField (dedupeKeepLast fields0) signatureField = some sig →
      (lookupField (restFields fields0) timestampField).bind parseDecimal = some ts →
      computeSignature cfg secret (restFields fields0) = sig →
      (verify cfg fields0 secret now maxAge skew = Except.error VerificationError.Expired ↔
        (now - (ts : Int) > maxAge ∨ (ts : Int) > now + skew))) ∧
    verify toyCfg (toyPayload 113599) toySecret 200000 86400 10
      = Except.error VerificationError.Expired ∧
    verify toyCfg (toyPayload 113601) toySecret 200000 86400 10 = Except.ok 7 := by
  refine ⟨?_, rfl, rfl⟩
  intro cfg fields0 secret now maxAge skew sig ts h1 h2 h3
  rw [verify_eq_of_parsed cfg fields0 secret now maxAge skew sig ts h1 h2]
  rw [if_neg (by simp [h3])]
  split_ifs with hd
  · exact iff_of_true rfl hd
  · refine iff_of_false ?_ hd
    cases (lookupField (restFields fields0) userField).bind cfg.parseUser <;> simp

/-- C3 witness: the general expiry characterization applied to the fresh toy
payload, whose timestamp lies inside the replay window. -/
theorem claim_C3_witness :
    verify toyCfg (toyPayload 113601) toySecret 200000 86400 10
        = Except.error VerificationError.Expired ↔
      ((200000 : Int) - (113601 : Nat) > 86400 ∨ ((113601 : Nat) : Int) > 200000 + 10) :=
  claim_C3_expiry_window.1 toyCfg (toyPayload 113601) toySecret 200000 86400 10
    (computeSignature toyCfg toySecret [("auth_date", "113601"), ("user", "u")])
    113601 rfl rfl rfl

/-! ## AccountResolver (modelled from the spec) -/

/-- Modelled from the spec: the durable Account record — identity is the
platform user id, plus informational profile fields and a creation
timestamp. -/
structure Account where
  platformUserId : Int
  firstName : String
  lastName : String
  username : String
  createdAt : Int
deriving DecidableEq, Repr

/-- Default state of a freshly created Account. -/
def defaultAccount (uid now : Int) : Account := ⟨uid, "", "", "", now⟩

/-- Record for `uid` in the account store, if any. -/
def findAccount (store : List Account) (uid : Int) : Option Account :=
  store.find? (fun a => a.platformUserId = uid)

/-- Modelled from the spec: `AccountResolver.resolve` (§4.2) as an idempotent
upsert over the persistent account store: create a default Account on first
contact, return the existing row unchanged otherwise. -/
def resolve (store : List Account) (uid now : Int) : Account × List Account :=
  match findAccount store uid with
  | some a => (a, store)
  | none => (defaultAccount uid now, store ++ [defaultAccount uid now])

/-- Lookup after append: `findAccount` after appending the default row for `uid` finds it, when
the original store had no row for `uid`. -/
theorem findAccount_append_default (store : List Account) (uid now : Int)
    (h : findAccount store uid = none) :
    findAccount (store ++ [defaultAccount uid now]) uid = some (defaultAccount uid now) := by
  unfold findAccount at h ⊢
  rw [List.find?_append, h]
  simp [defaultAccount]

/-- C4: `resolve` is an idempotent upsert — on a store without the id it
creates (appends) exactly one default Account and returns it; on a store
with the id it returns the existing row and leaves the store unchanged; the
returned Account always carries the requested platform user id; and a second
`resolve` for the same id returns the same Account and does not create a
second record. -/
theorem claim_C4_resolve_idempotent_upsert :
    (∀ (store : List Account) (uid now : Int),
      findAccount store uid = none →
        resolve store uid now = (defaultAccount uid now, store ++ [defaultAccount uid now])) ∧
    (∀ (store : List Account) (uid now : Int) (a : Account),
      findAccount store uid = some a → resolve store uid now = (a, store)) ∧
    (∀ (store : List Account) (uid now : Int),
      (resolve store uid now).1.platformUserId = uid) ∧
    (∀ (store : List Account) (uid now1 now2 : Int),
      resolve (resolve store uid now1).2 uid now2 =
        ((resolve store uid now1).1, (resolve store uid now1).2)) := by
  refine ⟨?_, ?_, ?_, ?_⟩
  · intro store uid now h
    simp [resolve, h]
  · intro store uid now a h
    simp [resolve, h]
  · intro store uid now
    unfold resolve
    cases hf : findAccount store uid with
    | some a =>
        have := List.find?_some hf
        simpa using this
    | none => simp [defaultAccount]
  · intro store uid now1 now2
    cases hf : findAccount store uid with
    | some a => simp [resolve, hf]
    | none =>
        simp only [resolve, hf]
        rw [findAccount_append_default store uid now1 hf]

/-- C4 witness: resolving a fresh id twice on the empty store. -/
theorem claim_C4_witness :
    (findAccount [] 42 = none →
      resolve [] 42 5 = (defaultAccount 42 5, [] ++ [defaultAccount 42 5])) ∧
    (findAccount [defaultAccount 42 5] 42 = some (defaultAccount 42 5) →
      resolve [defaultAccount 42 5] 42 9 = (defaultAccount 42 5, [defaultAccount 42 5])) ∧
    (resolve [] 42 5).1.platformUserId = 42 ∧
    resolve (resolve [] 42 5).2 42 9 = ((resolve [] 42 5).1, (resolve [] 42 5).2) :=
  ⟨fun h => claim_C4_resolve_idempotent_upsert.1 [] 42 5 h,
   fun h => claim_C4_resolve_idempotent_upsert.2.1 [defaultAccount 42 5] 42 9 _ h,
   claim_C4_resolve_idempotent_upsert.2.2.1 [] 42 5,
   claim_C4_resolve_idempotent_upsert.2.2.2 [] 42 5 9⟩

/-! ## LedgerRepository (modelled from the spec) -/

/-- Category kind: the spec fixes `kind ∈ \x7bexpense, income, debt\x7d`. -/
inductive CatKind where
  | expense
  | income
  | debt
deriving DecidableEq, Repr

/-- Modelled from the spec: the Category record, owned by exactly one
Account, with name, kind, opaque visual metadata and an active flag
(mirrors the frontend `Category` type of `web/src/lib/api.ts`). -/
structure Category where
  id : Nat
  accountId : Int
  name : String
  kind : CatKind
  color : String
  icon : String
  isActive : Bool
deriving DecidableEq, Repr

/-- The repository error taxonomy relevant to these claims. -/
inductive LedgerError where
  | ValidationError
  | NotFound
deriving DecidableEq, Repr

/-- Modelled from the spec: the persistent ledger of one deployment —
categories and transactions of all accounts, plus the next transaction id
(insertion order). -/
structure Ledger where
  categories : List Category
  transactions : List StoredTx
  nextTxId : Nat
deriving Repr

/-- A transaction type matches a category kind only expense↔expense and
income↔income; `debt` categories are never attached to a transaction. -/
def kindMatches (t : TxType) (k : CatKind) : Bool :=
  match t, k with
  | .expense, .expense => true
  | .income, .income => true
  | _, _ => false

/-- The category with id `cid` owned by `acct`, if any. -/
def findOwnedCategory (st : Ledger) (acct : Int) (cid : Nat) : Option Category :=
  st.categories.find? (fun c => c.id = cid && c.accountId = acct)

/-- Append a validated transaction to the ledger; an unspecified occurrence
timestamp defaults to the current time. -/
def insertTx (st : Ledger) (acct : Int) (ty : TxType) (amount : Int) (note : String)
    (categoryId : Option Nat) (occurredAt : Option Int) (now : Int) : StoredTx × Ledger :=
  let tx : StoredTx := ⟨st.nextTxId, acct, ty, amount, note, categoryId, occurredAt.getD now⟩
  (tx, { st with transactions := st.transactions ++ [tx], nextTxId := st.nextTxId + 1 })

/-- Modelled from the spec: `createTransaction` (§4.3) — `ValidationError`
when amount ≤ 0, `ValidationError` when the category reference is not owned
by the account or its kind mismatches the transaction type, and the
occurrence timestamp defaults to `now`. -/
def createTransaction (st : Ledger) (acct : Int) (ty : TxType) (amount : Int)
    (note : String) (categoryId : Option Nat) (occurredAt : Option Int) (now : Int) :
    Except LedgerError (StoredTx × Ledger) :=
  if amount ≤ 0 then .error .ValidationError
  else
    match categoryId with
    | none => .ok (insertTx st acct ty amount note none occurredAt now)
    | some cid =>
        match findOwnedCategory st acct cid with
        | none => .error .ValidationError
        | some c =>
            if kindMatches ty c.kind then
              .ok (insertTx st acct ty amount note (some cid) occurredAt now)
            else .error .ValidationError

/-- The transaction with id `id` owned by `acct`, if any. -/
def findOwnedTx (st : Ledger) (acct : Int) (id : Nat) : Option StoredTx :=
  st.transactions.find? (fun t => t.id = id && t.accountId = acct)

/-- Modelled from the spec: `deleteTransaction` (§4.3) — `NotFound` both when
the id does not exist and when it is owned by another account; otherwise the
record is removed permanently. -/
def deleteTransaction (st : Ledger) (acct : Int) (id : Nat) : Except LedgerError Ledger :=
  match findOwnedTx st acct id with
  | none => .error .NotFound
  | some _ => .ok { st with transactions := st.transactions.filter (fun t => ¬ t.id = id) }

/-- Newest-first order on stored transactions: occurrence timestamp
descending, ties broken by insertion order (id) descending. -/
def txOrder (a b : StoredTx) : Prop :=
  b.occurredAt < a.occurredAt ∨ (b.occurredAt = a.occurredAt ∧ b.id ≤ a.id)

instance : DecidableRel txOrder := fun a b => by
  unfold txOrder
  infer_instance

instance : IsTotal StoredTx txOrder := ⟨by
  intro a b
  unfold txOrder
  omega⟩

instance : IsTrans StoredTx txOrder := ⟨by
  intro a b c
  unfold txOrder
  omega⟩

/-- Modelled from the spec: `listTransactions` (§4.3) — the account's
transactions, most recent first, truncated to `limit`. -/
def listTransactions (st : Ledger) (acct : Int) (limit : Nat) : List StoredTx :=
  (List.insertionSort txOrder (st.transactions.filter (fun t => t.accountId = acct))).take limit

/-- A successful `createTransaction` returns exactly the inserted pair. -/
theorem createTransaction_ok (st : Ledger) (acct : Int) (ty : TxType) (amount : Int)
    (note : String) (categoryId : Option Nat) (occurredAt : Option Int) (now : Int)
    (p : StoredTx × Ledger)
    (h : createTransaction st acct ty amount note categoryId occurredAt now = Except.ok p) :
    p = insertTx st acct ty amount note categoryId occurredAt now := by
  unfold createTransaction at h
  split_ifs at h
  cases categoryId with
  | none =>
      simp at h
      exact h.symm
  | some cid =>
      simp only [] at h
      cases hf : findOwnedCategory st acct cid with
      | none =>
          rw [hf] at h
          simp at h
      | some c =>
          rw [hf] at h
          simp only [] at h
          split_ifs at h
          simp at h
          exact h.symm

/-- C5: `createTransaction` rejects every non-positive amount with
`ValidationError` (in particular 0 and −5), rejects a category reference
that is not owned by the account or whose kind mismatches the transaction
type (never silently reassigning it), and defaults the occurrence timestamp
to the current time when unspecified. -/
theorem claim_C5_createTransaction_validation :
    (∀ (st : Ledger) (acct : Int) (ty : TxType) (amount : Int) (note : String)
        (categoryId : Option Nat) (occurredAt : Option Int) (now : Int),
      amount ≤ 0 →
        createTransaction st acct ty amount note categoryId occurredAt now
          = Except.error LedgerError.ValidationError) ∧
    (∀ (st : Ledger) (acct : Int) (ty : TxType) (note : String)
        (categoryId : Option Nat) (occurredAt : Option Int) (now : Int),
      createTransaction st acct ty 0 note categoryId occurredAt now
        = Except.error LedgerError.ValidationError) ∧
    (∀ (st : Ledger) (acct : Int) (ty : TxType) (note : String)
        (categoryId : Option Nat) (occurredAt : Option Int) (now : Int),
      createTransaction st acct ty (-5) note categoryId occurredAt now
        = Except.error LedgerError.ValidationError) ∧
    (∀ (st : Ledger) (acct : Int) (ty : TxType) (amount : Int) (note : String)
        (cid : Nat) (occurredAt : Option Int) (now : Int),
      findOwnedCategory st acct cid = none →
        createTransaction st acct ty amount note (some cid) occurredAt now
          = Except.error LedgerError.ValidationError) ∧
    (∀ (st : Ledger) (acct : Int) (ty : TxType) (amount : Int) (note : String)
        (cid : Nat) (occurredAt : Option Int) (now : Int) (c : Category),
      findOwnedCategory st acct cid = some c → kindMatches ty c.kind = false →
        createTransaction st acct ty amount note (some cid) occurredAt now
          = Except.error LedgerError.ValidationError) ∧
    (∀ (st : Ledger) (acct : Int) (ty : TxType) (amount : Int) (note : String)
        (categoryId : Option Nat) (now : Int) (tx : StoredTx) (st2 : Ledger),
      createTransaction st acct ty amount note categoryId none now = Except.ok (tx, st2) →
        tx.occurredAt = now) := by
  refine ⟨?_, ?_, ?_, ?_, ?_, ?_⟩
  · intro st acct ty amount note categoryId occurredAt now h
    simp [createTransaction, h]
  · intro st acct ty note categoryId occurredAt now
    simp [createTransaction]
  · intro st acct ty note categoryId occurredAt now
    simp [createTransaction]
  · intro st acct ty amount note cid occurredAt now h
    unfold createTransaction
    split_ifs
    · rfl
    · simp only []
      rw [h]
  · intro st acct ty amount note cid occurredAt now c h hk
    unfold createTransaction
    split_ifs
    · rfl
    · simp only []
      rw [h]
      simp [hk]
  · intro st acct ty amount note categoryId now tx st2 h
    have hp := createTransaction_ok st acct ty amount note categoryId none now (tx, st2) h
    have h1 := congrArg Prod.fst hp
    have h2 := congrArg StoredTx.occurredAt h1
    simpa [insertTx] using h2

/-- C5 witness: concrete rejections and the timestamp default on a one-
category ledger. -/
theorem claim_C5_witness :
    createTransaction ⟨[], [], 0⟩ 1 TxType.expense (-5) "" none none 0
        = Except.error LedgerError.ValidationError ∧
    (findOwnedCategory ⟨[], [], 0⟩ 1 3 = none →
      createTransaction ⟨[], [], 0⟩ 1 TxType.expense 10 "" (some 3) none 0
        = Except.error LedgerError.ValidationError) ∧
    (findOwnedCategory ⟨[⟨3, 1, "food", CatKind.expense, "", "", true⟩], [], 0⟩ 1 3
          = some ⟨3, 1, "food", CatKind.expense, "", "", true⟩ →
      kindMatches TxType.income CatKind.expense = false →
      createTransaction ⟨[⟨3, 1, "food", CatKind.expense, "", "", true⟩], [], 0⟩ 1
          TxType.income 10 "" (some 3) none 0
        = Except.error LedgerError.ValidationError) ∧
    (createTransaction ⟨[], [], 0⟩ 1 TxType.expense 10 "" none none 77
          = Except.ok (⟨0, 1, TxType.expense, 10, "", none, 77⟩, ⟨[], [⟨0, 1, TxType.expense, 10, "", none, 77⟩], 1⟩) →
      (⟨0, 1, TxType.expense, 10, "", none, 77⟩ : StoredTx).occurredAt = 77) :=
  ⟨claim_C5_createTransaction_validation.2.2.1 ⟨[], [], 0⟩ 1 TxType.expense "" none none 0,
   fun h => claim_C5_createTransaction_validation.2.2.2.1 ⟨[], [], 0⟩ 1 TxType.expense 10 "" 3 none 0 h,
   fun h hk => claim_C5_createTransaction_validation.2.2.2.2.1
     ⟨[⟨3, 1, "food", CatKind.expense, "", "", true⟩], [], 0⟩ 1 TxType.income 10 "" 3 none 0 _ h hk,
   fun h => claim_C5_createTransaction_validation.2.2.2.2.2
     ⟨[], [], 0⟩ 1 TxType.expense 10 "" none 77 _ _ h⟩

/-- C6: `deleteTransaction` answers `NotFound` both when no transaction has
the id and when the transaction with the id belongs to a different account —
the identical error constructor, with no distinguishable forbidden outcome —
and on an owned id it removes the transaction permanently: the resulting
store holds no transaction with that id. -/
theorem claim_C6_deleteTransaction_notfound :
    (∀ (st : Ledger) (acct : Int) (id : Nat),
      (∀ t ∈ st.transactions, t.id ≠ id) →
        deleteTransaction st acct id = Except.error LedgerError.NotFound) ∧
    (∀ (st : Ledger) (acct : Int) (id : Nat),
      (∀ t ∈ st.transactions, t.id = id → ¬ t.accountId = acct) →
        deleteTransaction st acct id = Except.error LedgerError.NotFound) ∧
    (∀ (st : Ledger) (acct : Int) (id : Nat) (tx : StoredTx),
      findOwnedTx st acct id = some tx →
        deleteTransaction st acct id =
          Except.ok { st with transactions := st.transactions.filter (fun t => ¬ t.id = id) } ∧
        ∀ t ∈ (st.transactions.filter (fun t => ¬ t.id = id)), t.id ≠ id) := by
  refine ⟨?_, ?_, ?_⟩
  · intro st acct id h
    have hf : findOwnedTx st acct id = none := by
      unfold findOwnedTx
      rw [List.find?_eq_none]
      intro t ht
      simp [h t ht]
    simp [deleteTransaction, hf]
  · intro st acct id h
    have hf : findOwnedTx st acct id = none := by
      unfold findOwnedTx
      rw [List.find?_eq_none]
      intro t ht
      by_cases hid : t.id = id
      · simp [hid, h t ht hid]
      · simp [hid]
    simp [deleteTransaction, hf]
  · intro st acct id tx h
    refine ⟨by simp [deleteTransaction, h], ?_⟩
    intro t ht
    have := (List.mem_filter.mp ht).2
    simpa using this

/-- C6 witness: a two-account store — deleting a missing id, an id of the
other account, and an owned id. -/
theorem claim_C6_witness :
    ((∀ t ∈ ([⟨5, 2, TxType.expense, 10, "", none, 0⟩] : List StoredTx), t.id ≠ 9) →
      deleteTransaction ⟨[], [⟨5, 2, TxType.expense, 10, "", none, 0⟩], 6⟩ 1 9
        = Except.error LedgerError.NotFound) ∧
    ((∀ t ∈ ([⟨5, 2, TxType.expense, 10, "", none, 0⟩] : List StoredTx),
        t.id = 5 → ¬ t.accountId = 1) →
      deleteTransaction ⟨[], [⟨5, 2, TxType.expense, 10, "", none, 0⟩], 6⟩ 1 5
        = Except.error LedgerError.NotFound) ∧
    (findOwnedTx ⟨[], [⟨5, 2, TxType.expense, 10, "", none, 0⟩], 6⟩ 2 5
        = some ⟨5, 2, TxType.expense, 10, "", none, 0⟩ →
      deleteTransaction ⟨[], [⟨5, 2, TxType.expense, 10, "", none, 0⟩], 6⟩ 2 5
          = Except.ok ⟨[], [], 6⟩ ∧
        ∀ t ∈ (([⟨5, 2, TxType.expense, 10, "", none, 0⟩] : List StoredTx).filter
          (fun t => ¬ t.id = 5)), t.id ≠ 5) :=
  ⟨fun h => claim_C6_deleteTransaction_notfound.1
      ⟨[], [⟨5, 2, TxType.expense, 10, "", none, 0⟩], 6⟩ 1 9 h,
   fun h => claim_C6_deleteTransaction_notfound.2.1
      ⟨[], [⟨5, 2, TxType.expense, 10, "", none, 0⟩], 6⟩ 1 5 h,
   fun h => claim_C6_deleteTransaction_notfound.2.2
      ⟨[], [⟨5, 2, TxType.expense, 10, "", none, 0⟩], 6⟩ 2 5 _ h⟩

/-- C7: `listTransactions` is sorted newest-first — occurrence timestamp
descending, ties broken by insertion order (id) descending — its length
never exceeds `limit`, and it only contains the account's transactions. -/
theorem claim_C7_listTransactions_order_limit :
    ∀ (st : Ledger) (acct : Int) (limit : Nat),
      (listTransactions st acct limit).length ≤ limit ∧
      List.Sorted txOrder (listTransactions st acct limit) ∧
      ∀ t ∈ listTransactions st acct limit, t.accountId = acct := by
  intro st acct limit
  refine ⟨?_, ?_, ?_⟩
  · rw [listTransactions, List.length_take]
    exact min_le_left _ _
  · exact List.Pairwise.sublist (List.take_sublist _ _)
      (List.sorted_insertionSort txOrder _)
  · intro t ht
    have h1 := List.mem_of_mem_take ht
    have h2 := (List.perm_insertionSort txOrder _).mem_iff.mp h1
    simpa using (List.mem_filter.mp h2).2

/-! ## Frontend API client (`web/src/lib/api.ts`) -/

/-- The `ApiError` of `api.ts`: message, HTTP status (0 for network/other
failures) and optional detail. -/
structure ApiError where
  message : String
  status : Nat
  detail : Option String
deriving DecidableEq, Repr

/-- The relevant fields of a JSON-parsed error body (`errorJson.detail`,
`errorJson.message`); `none` when the field is absent or not a string. -/
structure ErrorBody where
  detail : Option String
  message : Option String
deriving DecidableEq, Repr

/-- JS truthiness of an optional string: absent, or the empty string, is
falsy. -/
def jsTruthy : Option String → Bool
  | none => false
  | some s => ¬ s = ""

/-- The JS `||` on optional strings. -/
def jsOr (a b : Option String) : Option String := if jsTruthy a then a else b

/-- Outcome of `fetch`: the promise rejects (an `Error` carrying a message,
or a non-`Error` value), or a response arrives with a status and body
text. -/
inductive FetchOutcome where
  | netFail (msg : Option String)
  | gotResponse (status : Nat) (body : String)
deriving DecidableEq, Repr

/-- Predicate `Response.ok` of fetch: status in the inclusive range 200–299. -/
def resOk (status : Nat) : Bool := 200 ≤ status && status ≤ 299

/-- The error-branch bookkeeping of `request` for a non-ok response:
`errorMessage` and `errorDetail` as computed from the body text, its JSON
parse (`detail || message || text`), or the bare status-code fallback. -/
def errorParts (parseErr : String → Option ErrorBody) (status : Nat) (body : String) :
    String × Option String :=
  if body = "" then ("Request failed with status " ++ toString status, none)
  else
    match parseErr body with
    | some j =>
        let d := jsOr (jsOr j.detail j.message) (some body)
        (d.getD body, d)
    | none => (body, some body)

/-- The `request<T>` helper of `api.ts`, embedded over an abstract fetch
outcome: a non-ok response raises `ApiError` with that status and the parsed
detail, a 204 resolves to no value, an ok body is JSON-parsed to `T` and any
other failure (network, body parse) is rethrown as `ApiError` with status 0;
`parseErr`/`parseBody` stand for `JSON.parse` and `jsonFailMsg` for the
parse exception's message. -/
def request {T : Type} (parseErr : String → Option ErrorBody)
    (parseBody : String → Option T) (jsonFailMsg : String) (o : FetchOutcome) :
    Except ApiError (Option T) :=
  match o with
  | .netFail msg => .error ⟨msg.getD "Network error", 0, none⟩
  | .gotResponse status body =>
      if ¬ resOk status then
        .error ⟨(errorParts parseErr status body).1, status,
          (errorParts parseErr status body).2⟩
      else if status = 204 then .ok none
      else
        match parseBody body with
        | some v => .ok (some v)
        | none => .error ⟨jsonFailMsg, 0, none⟩

/-- C9: `request` fails only with `ApiError` (enforced by its result type):
a non-ok response yields an `ApiError` carrying exactly the response's
status, with detail from the JSON body's `detail`/`message` field or the raw
body text; a rejected fetch or an unparsable ok body yields status 0; and a
204 resolves to no value for every body parser (no body is parsed). -/
theorem claim_C9_request_error_contract :
    (∀ (T : Type) (parseErr : String → Option ErrorBody) (parseBody : String → Option T)
        (jsonFailMsg : String) (status : Nat) (body : String),
      resOk status = false →
        ∃ e : ApiError,
          request parseErr parseBody jsonFailMsg (FetchOutcome.gotResponse status body)
              = Except.error e ∧
          e.status = status ∧ e.detail = (errorParts parseErr status body).2) ∧
    (∀ (T : Type) (parseErr : String → Option ErrorBody) (parseBody : String → Option T)
        (jsonFailMsg : String) (msg : Option String),
      ∃ e : ApiError,
        request parseErr parseBody jsonFailMsg (FetchOutcome.netFail msg)
            = Except.error e ∧ e.status = 0) ∧
    (∀ (T : Type) (parseErr : String → Option ErrorBody) (parseBody : String → Option T)
        (jsonFailMsg : String) (status : Nat) (body : String),
      resOk status = true → status ≠ 204 → parseBody body = none →
        ∃ e : ApiError,
          request parseErr parseBody jsonFailMsg (FetchOutcome.gotResponse status body)
              = Except.error e ∧ e.status = 0) ∧
    (∀ (T : Type) (parseErr : String → Option ErrorBody) (parseBody : String → Option T)
        (jsonFailMsg : String) (body : String),
      request parseErr parseBody jsonFailMsg (FetchOutcome.gotResponse 204 body)
        = Except.ok none) ∧
    (∀ (parseErr : String → Option ErrorBody) (status : Nat) (body : String) (j : ErrorBody),
      body ≠ "" → parseErr body = some j → jsTruthy j.detail = true →
        (errorParts parseErr status body).2 = j.detail) ∧
    (∀ (parseErr : String → Option ErrorBody) (status : Nat) (body : String),
      body ≠ "" → parseErr body = none →
        (errorParts parseErr status body).2 = some body) := by
  refine ⟨?_, ?_, ?_, ?_, ?_, ?_⟩
  · intro T parseErr parseBody jsonFailMsg status body h
    refine ⟨⟨(errorParts parseErr status body).1, status,
      (errorParts parseErr status body).2⟩, ?_, rfl, rfl⟩
    simp [request, h]
  · intro T parseErr parseBody jsonFailMsg msg
    exact ⟨_, rfl, rfl⟩
  · intro T parseErr parseBody jsonFailMsg status body hok h204 hparse
    refine ⟨⟨jsonFailMsg, 0, none⟩, ?_, rfl⟩
    simp [request, hok, h204, hparse]
  · intro T parseErr parseBody jsonFailMsg body
    simp [request, resOk]
  · intro parseErr status body j hb hj hd
    simp [errorParts, hb, hj, jsOr, hd]
  · intro parseErr status body hb hj
    simp [errorParts, hb, hj]

/-- C9 witness: a 404 with a JSON `detail` body, a network failure, an ok
200 response whose body fails to parse, and a 204. -/
theorem claim_C9_witness :
    (resOk 404 = false →
      ∃ e : ApiError,
        request (fun _ => some ⟨some "nope", none⟩) (fun s => some s.length) "bad json"
            (FetchOutcome.gotResponse 404 "x") = Except.error e ∧
        e.status = 404 ∧
        e.detail = (errorParts (fun _ => some ⟨some "nope", none⟩) 404 "x").2) ∧
    (∃ e : ApiError,
      request (fun _ => some ⟨some "nope", none⟩) (fun s => some s.length) "bad json"
          (FetchOutcome.netFail (some "boom")) = Except.error e ∧ e.status = 0) ∧
    (resOk 200 = true → (200 : Nat) ≠ 204 →
      (fun _ : String => (none : Option Nat)) "oops" = none →
      ∃ e : ApiError,
        request (fun _ => some ⟨some "nope", none⟩) (fun _ => (none : Option Nat))
            "bad json" (FetchOutcome.gotResponse 200 "oops") = Except.error e ∧
        e.status = 0) ∧
    request (fun _ => some ⟨some "nope", none⟩) (fun s => some s.length) "bad json"
        (FetchOutcome.gotResponse 204 "") = Except.ok none ∧
    (("x" : String) ≠ "" → (fun _ => some (⟨some "nope", none⟩ : ErrorBody)) "x"
        = some ⟨some "nope", none⟩ → jsTruthy (some "nope") = true →
      (errorParts (fun _ => some ⟨some "nope", none⟩) 404 "x").2 = some "nope") :=
  ⟨fun h => claim_C9_request_error_contract.1 Nat (fun _ => some ⟨some "nope", none⟩)
      (fun s => some s.length) "bad json" 404 "x" h,
   claim_C9_request_error_contract.2.1 Nat (fun _ => some ⟨some "nope", none⟩)
      (fun s => some s.length) "bad json" (some "boom"),
   fun hok h204 hparse => claim_C9_request_error_contract.2.2.1 Nat
      (fun _ => some ⟨some "nope", none⟩) (fun _ => (none : Option Nat)) "bad json"
      200 "oops" hok h204 hparse,
   claim_C9_request_error_contract.2.2.2.1 Nat (fun _ => some ⟨some "nope", none⟩)
      (fun s => some s.length) "bad json" "",
   fun hb hj hd => claim_C9_request_error_contract.2.2.2.2.1
      (fun _ => some ⟨some "nope", none⟩) 404 "x" ⟨some "nope", none⟩ hb hj hd⟩

/-! ## Auth header and 401 gate (C8) -/

/-- Function `getInitData` of `web/src/lib/telegram.ts`: the host platform's raw
signed payload, or the empty string when the platform object is absent
(`tg()?.initData ?? ""`). -/
def getInitData (tg : Option String) : String := tg.getD ""

/-- Semantics of `Headers.set`: replace every pair with the name, or append one. -/
def headersSet (hs : List (String × String)) (name value : String) :
    List (String × String) :=
  if hs.any (fun p => p.1 = name) then
    hs.map (fun p => if p.1 = name then (name, value) else p)
  else hs ++ [(name, value)]

/-- The header assembly of `request` in `api.ts`: the caller's headers, then
`Content-Type`, then `X-TG-Init-Data` set to `getInitData()`. -/
def requestHeaders (initHeaders : List (String × String)) (tg : Option String) :
    List (String × String) :=
  headersSet (headersSet initHeaders "Content-Type" "application/json")
    "X-TG-Init-Data" (getInitData tg)

/-- After `headersSet hs name value`, a pair named `name` is present. -/
theorem headersSet_mem (hs : List (String × String)) (name value : String) :
    (name, value) ∈ headersSet hs name value := by
  unfold headersSet
  split_ifs with h
  · obtain ⟨p, hp, hname⟩ := List.any_eq_true.mp h
    rw [List.mem_map]
    refine ⟨p, hp, ?_⟩
    simp only [decide_eq_true_eq] at hname
    simp [hname]
  · simp

/-- After `headersSet hs name value`, every pair named `name` carries
`value`. -/
theorem headersSet_unique (hs : List (String × String)) (name value : String)
    (p : String × String) (hp : p ∈ headersSet hs name value) (hn : p.1 = name) :
    p.2 = value := by
  unfold headersSet at hp
  split_ifs at hp with h
  · obtain ⟨q, hq, hfq⟩ := List.mem_map.mp hp
    by_cases hq1 : q.1 = name
    · rw [if_pos hq1] at hfq
      rw [← hfq]
    · rw [if_neg hq1] at hfq
      rw [← hfq] at hn
      exact absurd hn hq1
  · rcases List.mem_append.mp hp with hin | hone
    · exfalso
      apply h
      rw [List.any_eq_true]
      exact ⟨p, hin, by simp [hn]⟩
    · simp only [List.mem_singleton] at hone
      rw [hone]

/-- Modelled from the spec: the server-side gate — every request's
`X-TG-Init-Data` header value is parsed and verified before any business
logic; absence or invalidity yields 401 and the handler never runs.  The
result is the HTTP status paired with whether business logic ran. -/
def handle (parse : String → Option (List (String × String))) (cfg : VerifyCfg)
    (secret : List Nat) (now maxAge skew : Int) (header : String)
    (business : Int → Nat) : Nat × Bool :=
  match parse header with
  | none => (401, false)
  | some fields =>
      match verify cfg fields secret now maxAge skew with
      | .error _ => (401, false)
      | .ok uid => (business uid, true)

/-- C8: every request built by the api client carries the raw signed payload
in the `X-TG-Init-Data` header — the empty string when the platform object
is absent — and any request whose payload does not parse or does not verify
receives 401 with the business logic never running. -/
theorem claim_C8_auth_header_and_gate :
    (∀ (initHeaders : List (String × String)) (tg : Option String),
      ("X-TG-Init-Data", getInitData tg) ∈ requestHeaders initHeaders tg ∧
      ∀ p ∈ requestHeaders initHeaders tg, p.1 = "X-TG-Init-Data" →
        p.2 = getInitData tg) ∧
    getInitData none = "" ∧
    (∀ (parse : String → Option (List (String × String))) (cfg : VerifyCfg)
        (secret : List Nat) (now maxAge skew : Int) (header : String)
        (business : Int → Nat),
      parse header = none →
        handle parse cfg secret now maxAge skew header business = (401, false)) ∧
    (∀ (parse : String → Option (List (String × String))) (cfg : VerifyCfg)
        (secret : List Nat) (now maxAge skew : Int) (header : String)
        (business : Int → Nat) (fields : List (String × String)) (e : VerificationError),
      parse header = some fields →
      verify cfg fields secret now maxAge skew = Except.error e →
        handle parse cfg secret now maxAge skew header business = (401, false)) := by
  refine ⟨?_, rfl, ?_, ?_⟩
  · intro initHeaders tg
    exact ⟨headersSet_mem _ _ _, fun p hp hn => headersSet_unique _ _ _ p hp hn⟩
  · intro parse cfg secret now maxAge skew header business h
    simp [handle, h]
  · intro parse cfg secret now maxAge skew header business fields e h hv
    simp [handle, h, hv]

/-- C8 witness: an empty header that fails to parse, and a parsed empty
mapping that fails verification with `MissingSignature`. -/
theorem claim_C8_witness :
    (("X-TG-Init-Data", getInitData none) ∈ requestHeaders [("Accept", "text/html")] none ∧
      ∀ p ∈ requestHeaders [("Accept", "text/html")] none, p.1 = "X-TG-Init-Data" →
        p.2 = getInitData none) ∧
    ((fun _ : String => (none : Option (List (String × String)))) "" = none →
      handle (fun _ => none) toyCfg toySecret 0 86400 10 "" (fun _ => 200) = (401, false)) ∧
    ((fun _ : String => some ([] : List (String × String))) "" = some [] →
      verify toyCfg [] toySecret 0 86400 10
          = Except.error VerificationError.MissingSignature →
      handle (fun _ => some []) toyCfg toySecret 0 86400 10 "" (fun _ => 200)
        = (401, false)) :=
  ⟨(claim_C8_auth_header_and_gate.1 [("Accept", "text/html")] none),
   fun h => claim_C8_auth_header_and_gate.2.2.1 (fun _ => none) toyCfg toySecret
      0 86400 10 "" (fun _ => 200) h,
   fun h hv => claim_C8_auth_header_and_gate.2.2.2 (fun _ => some []) toyCfg toySecret
      0 86400 10 "" (fun _ => 200) [] VerificationError.MissingSignature h hv⟩

/-! ## Transaction-entry form (`TransactionsPage.tsx`) -/

/-- The frontend `Category` type of `api.ts`. -/
structure FCategory where
  id : Nat
  name : String
  kind : CatKind
  color : String
  icon : String
  is_active : Bool
deriving DecidableEq, Repr

/-- The category kind a transaction type selects in the `cats` memo
(`type === "expense" ? "expense" : "income"`). -/
def kindOfType : TxType → CatKind
  | .expense => CatKind.expense
  | .income => CatKind.income

/-- The `cats` memo of `TransactionsPage`: categories whose kind equals the
selected transaction type and which are active. -/
def activeMatching (cats : List FCategory) (ty : TxType) : List FCategory :=
  cats.filter (fun c => c.kind = kindOfType ty && c.is_active)

/-- The form's React state: type, amount string, note, selected category
(`none` for the empty `"No category"` option). -/
structure FormState where
  txType : TxType
  amount : String
  note : String
  categoryId : Option Nat
deriving DecidableEq, Repr

/-- Initial state: `useState` gives expense, empty amount and note, and no
category. -/
def initialForm : FormState := ⟨TxType.expense, "", "", none⟩

/-- The amount input handler: `e.target.value.replace(/[^0-9]/g, "")`. -/
def stripNonDigits (s : String) : String := String.mk (s.toList.filter Char.isDigit)

/-- User interactions the form wires to state. -/
inductive FormEvent where
  | setType (t : TxType)
  | editAmount (raw : String)
  | editNote (s : String)
  | selectCategory (v : Option Nat)

/-- State transition of the form for one event, as wired in the JSX:
switching the type does not reset the selected category. -/
def formStep (st : FormState) : FormEvent → FormState
  | .setType t => { st with txType := t }
  | .editAmount raw => { st with amount := stripNonDigits raw }
  | .editNote s => { st with note := s }
  | .selectCategory v => { st with categoryId := v }

/-- Which events the rendered markup offers: the category select presents
the empty option plus exactly the ids of `activeMatching cats st.txType`. -/
def eventAllowed (cats : List FCategory) (st : FormState) : FormEvent → Prop
  | .selectCategory (some cid) => ∃ c ∈ activeMatching cats st.txType, c.id = cid
  | _ => True

/-- Form states reachable through the rendered controls from the initial
state, for a fixed category list. -/
inductive Reachable (cats : List FCategory) : FormState → Prop where
  | init : Reachable cats initialForm
  | step (st : FormState) (e : FormEvent) : Reachable cats st →
      eventAllowed cats st e → Reachable cats (formStep st e)

/-- Evaluation of `Number(amount || 0)` on the (digit-string) amount state. -/
def amountValue (s : String) : Int := ((parseDecimal s).getD 0 : Nat)

/-- The save button is enabled:
`!(!amount || Number(amount) <= 0 || isPending)` with `isPending` false. -/
def canSave (st : FormState) : Bool :=
  decide (st.amount ≠ "") && decide (0 < amountValue st.amount)

/-- The body `createM` posts: `\x7b type, amount: Number(amount || 0), note,
category_id: categoryId === "" ? null : categoryId \x7d`. -/
structure CreatePayload where
  txType : TxType
  amount : Int
  note : String
  category_id : Option Nat
deriving DecidableEq, Repr

/-- Payload submitted from a form state. -/
def submitPayload (st : FormState) : CreatePayload :=
  ⟨st.txType, amountValue st.amount, st.note, st.categoryId⟩

/-- The submit invariant asserted by the claim: positive amount, and a
category reference that is null or an active category of the list whose
kind equals the submitted transaction type. -/
def claimedSubmitOk (cats : List FCategory) (p : CreatePayload) : Prop :=
  0 < p.amount ∧
  (p.category_id = none ∨
    ∃ c ∈ cats, p.category_id = some c.id ∧ c.is_active = true ∧
      c.kind = kindOfType p.txType)

/-- One active expense category, as the form would fetch it. -/
def demoCats : List FCategory := [⟨1, "food", CatKind.expense, "", "", true⟩]

/-- The state after: select the expense category, switch the type to income,
type an amount — the stale expense category id is still selected. -/
def cexState : FormState := ⟨TxType.income, "5", "", some 1⟩

/-- The stale-category state is reachable through the rendered controls. -/
theorem reachable_cexState : Reachable demoCats cexState := by
  have h0 : Reachable demoCats initialForm := .init
  have h1 : Reachable demoCats ⟨TxType.expense, "", "", some 1⟩ :=
    .step initialForm (.selectCategory (some 1)) h0
      ⟨⟨1, "food", CatKind.expense, "", "", true⟩,
        by simp [activeMatching, demoCats, kindOfType, initialForm], rfl⟩
  have h2 : Reachable demoCats ⟨TxType.income, "", "", some 1⟩ :=
    .step ⟨TxType.expense, "", "", some 1⟩ (.setType TxType.income) h1 trivial
  exact .step ⟨TxType.income, "", "", some 1⟩ (.editAmount "5") h2 trivial

/-- C10 counterexample: with one active expense category, selecting it, then
switching the type to income and saving submits `category_id = 1` whose
category's kind (expense) mismatches the submitted type (income) — the
claimed invariant fails on a reachable, saveable state. -/
theorem claim_C10_counterexample :
    Reachable demoCats cexState ∧ canSave cexState = true ∧
    ¬ claimedSubmitOk demoCats (submitPayload cexState) := by
  refine ⟨reachable_cexState, rfl, ?_⟩
  intro ⟨hpos, hcat⟩
  rcases hcat with h | ⟨c, hc, hid, hact, hkind⟩
  · exact absurd h (by simp [submitPayload, cexState])
  · simp only [demoCats, List.mem_singleton] at hc
    rw [hc] at hkind
    exact absurd hkind (by simp [submitPayload, cexState, kindOfType])

/-- C10 (amended): every createTx call issued by the form carries an
all-digit amount whose numeric value is strictly positive, and a
`category_id` that is either null or the id of an active expense- or
income-kind category of the fetched list — the kind matched the transaction
type selected at selection time, but switching the type afterwards is not
reset, so it need not equal the submitted type. -/
theorem claim_C10_amended_form_submit :
    ∀ (cats : List FCategory) (st : FormState),
      Reachable cats st → canSave st = true →
        0 < (submitPayload st).amount ∧
        st.amount.toList.all Char.isDigit = true ∧
        ((submitPayload st).category_id = none ∨
          ∃ c ∈ cats, (submitPayload st).category_id = some c.id ∧ c.is_active = true ∧
            (c.kind = CatKind.expense ∨ c.kind = CatKind.income)) := by
  intro cats st hr hs
  have inv : st.amount.toList.all Char.isDigit = true ∧
      (st.categoryId = none ∨
        ∃ c ∈ cats, st.categoryId = some c.id ∧ c.is_active = true ∧
          (c.kind = CatKind.expense ∨ c.kind = CatKind.income)) := by
    clear hs
    induction hr with
    | init => simp [initialForm]
    | step st e hr ha ih =>
        cases e with
        | setType t => exact ih
        | editAmount raw =>
            refine ⟨?_, ih.2⟩
            show (stripNonDigits raw).toList.all Char.isDigit = true
            unfold stripNonDigits
            rw [List.all_eq_true]
            intro c hc
            exact (List.mem_filter.mp hc).2
        | editNote s => exact ih
        | selectCategory v =>
            refine ⟨ih.1, ?_⟩
            cases v with
            | none => exact Or.inl rfl
            | some cid =>
                right
                obtain ⟨c, hc, hcid⟩ := ha
                have hm := List.mem_filter.mp hc
                have hcond := hm.2
                simp only [Bool.and_eq_true, decide_eq_true_eq] at hcond
                refine ⟨c, hm.1, by simp [formStep, hcid], hcond.2, ?_⟩
                cases hst : st.txType <;>
                  rw [hst] at hcond <;>
                  simp [kindOfType, hcond.1]
  refine ⟨?_, inv.1, inv.2⟩
  simp only [canSave, Bool.and_eq_true, decide_eq_true_eq] at hs
  exact hs.2

/-- C10 witness: the amended invariant evaluated on the reachable
stale-category state. -/
theorem claim_C10_witness :
    0 < (submitPayload cexState).amount ∧
    cexState.amount.toList.all Char.isDigit = true ∧
    ((submitPayload cexState).category_id = none ∨
      ∃ c ∈ demoCats, (submitPayload cexState).category_id = some c.id ∧
        c.is_active = true ∧
        (c.kind = CatKind.expense ∨ c.kind = CatKind.income)) :=
  claim_C10_amended_form_submit demoCats cexState reachable_cexState rfl

end BudgetBuddy
